import Mathlib

/-!
Shallow embedding of `src/include/labyrinth_map.hpp` from carlsonchan/labyrinth.

The repository ships only the header: the class declarations, their doc
comments, and the base-class method bodies (which throw `logic_error`) are in
the source; the member-function bodies of `LabyrinthMapCoordinateBorder`,
`LabyrinthMapCoordinateRoom` and `LabyrinthMap`, as well as the included
headers `coordinate.hpp`, `room_properties.hpp` and `labyrinth.hpp`, are not.
Definitions for those missing parts are modelled from the spec (each such
definition's doc comment says so); everything else is translated from the
header directly.

C++ exceptions are embedded as `Except Exc`, mutation as explicit state
passing, `size_t` as `Nat`.
-/

deriving instance DecidableEq for Except

/-- The three exception classes the header's contracts mention:
`std::logic_error`, `std::invalid_argument`, `std::domain_error`. -/
inductive Exc where
  | logic_error
  | invalid_argument
  | domain_error
deriving DecidableEq, Repr

/-- Modelled from the spec (missing `coordinate.hpp`): the direction attribute,
one of North, East, South, West, None; the header's contracts refer to the
`None` value as `kNone`. -/
inductive Direction where
  | kNorth
  | kEast
  | kSouth
  | kWest
  | kNone
deriving DecidableEq, Repr

/-- Modelled from the spec (missing `room_properties.hpp`): the inhabitant of a
room, one of None / live monster (Minotaur) / dead monster / intact mirror /
cracked mirror; the header uses `Inhabitant::kNone` as the default. -/
inductive Inhabitant where
  | kNone
  | kMinotaur
  | kMinotaurDead
  | kMirror
  | kMirrorCracked
deriving DecidableEq, Repr

/-- Modelled from the spec (missing `room_properties.hpp`): the item in a room,
one of None / Bullet / Treasure; the header uses `Item::kNone` as the default. -/
inductive Item where
  | kNone
  | kBullet
  | kTreasure
deriving DecidableEq, Repr

/-- Modelled from the spec (missing `coordinate.hpp`): a 2D integer position
with a direction attribute.  `LabyrinthMap` stores `size_t` sizes and its
bounds checks are lower-bounded by 0, so the components are `Nat`. -/
structure Coordinate where
  x : Nat
  y : Nat
  d : Direction := .kNone
deriving DecidableEq, Repr

/-- The private fields of `LabyrinthMapCoordinateBorder`
(header lines 161-168): four wall flags defaulting to `true` and an exit flag
defaulting to `false`. -/
structure BorderState where
  wall_north : Bool := true
  wall_east : Bool := true
  wall_south : Bool := true
  wall_west : Bool := true
  has_exit : Bool := false
deriving DecidableEq, Repr

/-- The private fields of `LabyrinthMapCoordinateRoom`
(header lines 191-194): an inhabitant and an item, both defaulting to
`kNone`. -/
structure RoomState where
  i : Inhabitant := .kNone
  itm : Item := .kNone
deriving DecidableEq, Repr

/-- The polymorphic cell (`LabyrinthMapCoordinate` with its two subclasses),
embedded as a sum: a cell is either a Border or a Room. -/
inductive LabyrinthMapCoordinate where
  | border (b : BorderState)
  | room (r : RoomState)
deriving DecidableEq, Repr

namespace LabyrinthMapCoordinate

/-- `IsWall`: on a Room the base-class body (header lines 44-53) throws
`logic_error`; on a Border the override is modelled from the spec and the
header contract (lines 139-143): it returns the wall flag for `d` and throws
`invalid_argument` when `d` is `kNone`. -/
def IsWall : LabyrinthMapCoordinate → Direction → Except Exc Bool
  | .room _, _ => .error .logic_error
  | .border b, d =>
    match d with
    | .kNorth => .ok b.wall_north
    | .kEast => .ok b.wall_east
    | .kSouth => .ok b.wall_south
    | .kWest => .ok b.wall_west
    | .kNone => .error .invalid_argument

/-- `SetWall`: on a Room the base-class body (header lines 55-65) throws
`logic_error`; on a Border the override is modelled from the spec and the
header contract (lines 145-151): it sets the wall flag for `d` to `exists`
and throws `invalid_argument` when `d` is `kNone`. -/
def SetWall : LabyrinthMapCoordinate → Direction → Bool →
    Except Exc LabyrinthMapCoordinate
  | .room _, _, _ => .error .logic_error
  | .border b, d, e =>
    match d with
    | .kNorth => .ok (.border { b with wall_north := e })
    | .kEast => .ok (.border { b with wall_east := e })
    | .kSouth => .ok (.border { b with wall_south := e })
    | .kWest => .ok (.border { b with wall_west := e })
    | .kNone => .error .invalid_argument

/-- `IsExit`: on a Room the base-class body (header lines 67-73) throws
`logic_error`; on a Border the override is modelled from the spec and the
header contract (lines 153-154): it returns the exit flag. -/
def IsExit : LabyrinthMapCoordinate → Except Exc Bool
  | .room _ => .error .logic_error
  | .border b => .ok b.has_exit

/-- `SetExit`: on a Room the base-class body (header lines 75-84) throws
`logic_error`; on a Border the override is modelled from the spec and the
header contract (lines 156-159): it sets the exit flag. -/
def SetExit : LabyrinthMapCoordinate → Bool → Except Exc LabyrinthMapCoordinate
  | .room _, _ => .error .logic_error
  | .border b, e => .ok (.border { b with has_exit := e })

/-- `GetInhabitant`: on a Border the base-class body (header lines 88-94)
throws `logic_error`; on a Room the override is modelled from the spec and the
header contract (lines 176-177): it returns the inhabitant. -/
def GetInhabitant : LabyrinthMapCoordinate → Except Exc Inhabitant
  | .border _ => .error .logic_error
  | .room r => .ok r.i

/-- `SetInhabitant`: on a Border the base-class body (header lines 96-105)
throws `logic_error`; on a Room the override is modelled from the spec and the
header contract (lines 179-182): it sets the inhabitant. -/
def SetInhabitant : LabyrinthMapCoordinate → Inhabitant →
    Except Exc LabyrinthMapCoordinate
  | .border _, _ => .error .logic_error
  | .room r, inh => .ok (.room { r with i := inh })

/-- `ItemAt`: on a Border the base-class body (header lines 107-113) throws
`logic_error`; on a Room the override is modelled from the spec and the header
contract (lines 184-185): it returns the item. -/
def ItemAt : LabyrinthMapCoordinate → Except Exc Item
  | .border _ => .error .logic_error
  | .room r => .ok r.itm

/-- `SetItem`: on a Border the base-class body (header lines 115-124) throws
`logic_error`; on a Room the override is modelled from the spec and the header
contract (lines 187-189): it sets the item. -/
def SetItem : LabyrinthMapCoordinate → Item → Except Exc LabyrinthMapCoordinate
  | .border _, _ => .error .logic_error
  | .room r, it => .ok (.room { r with itm := it })

/-- Observation: whether a cell is the Room variant. -/
def isRoomCell : LabyrinthMapCoordinate → Bool
  | .border _ => false
  | .room _ => true

/-- Observation: whether a cell (necessarily a Border) carries a wall segment
in direction `d`; a Room carries none, and `kNone` designates no segment. -/
def cellWall : LabyrinthMapCoordinate → Direction → Bool
  | .room _, _ => false
  | .border b, d =>
    match d with
    | .kNorth => b.wall_north
    | .kEast => b.wall_east
    | .kSouth => b.wall_south
    | .kWest => b.wall_west
    | .kNone => false

end LabyrinthMapCoordinate

/-- Modelled from the spec (missing `labyrinth.hpp`): the external, read-only
Labyrinth collaborator, providing the room count in each axis, per-room wall
presence in each of the four directions, and per-room inhabitant and item. -/
structure Labyrinth where
  x_size : Nat
  y_size : Nat
  hasWall : Nat → Nat → Direction → Bool
  inhabitantAt : Nat → Nat → Inhabitant
  itemAt : Nat → Nat → Item

/-- The `LabyrinthMap` state (header lines 200-228): the non-owned Labyrinth
reference (non-null after successful construction), the caller-supplied sizes,
and the owned 2-d array of cells, indexed first with the y-coordinate, then
with the x-coordinate. -/
structure LabyrinthMap where
  l : Labyrinth
  x_size : Nat
  y_size : Nat
  map : List (List LabyrinthMapCoordinate)

namespace LabyrinthMap

/-- The interleaved-grid width: `map_x_size_ = 2·x_size + 1` (spec §3). -/
def map_x_size (m : LabyrinthMap) : Nat := 2 * m.x_size + 1

/-- The interleaved-grid height: `map_y_size_ = 2·y_size + 1` (spec §3). -/
def map_y_size (m : LabyrinthMap) : Nat := 2 * m.y_size + 1

/-- Modelled from the spec (missing constructor body; spec §4.2 and §8): the
cell allocated at map position `(x, y)`: a default Room when both coordinates
are even, a default Border otherwise. -/
def mkCell (x y : Nat) : LabyrinthMapCoordinate :=
  if x % 2 == 0 && y % 2 == 0 then .room {} else .border {}

/-- A grid of `ys` rows, each of `xs` cells, the cell at `(x, y)` given by
`f x y`; embeds the C++ row-major nested-array allocation/update loops. -/
def gridOf (xs ys : Nat) (f : Nat → Nat → LabyrinthMapCoordinate) :
    List (List LabyrinthMapCoordinate) :=
  (List.range ys).map (fun y => (List.range xs).map (fun x => f x y))

/-- Modelled from the spec (missing constructor body; header lines 204-210 and
spec §4.2): construction throws `invalid_argument` when the labyrinth pointer
is null, `domain_error` when a size of 0 is given, and otherwise allocates the
`(2·x_size+1) × (2·y_size+1)` grid of default cells. -/
def construct (l : Option Labyrinth) (x_size y_size : Nat) :
    Except Exc LabyrinthMap :=
  match l with
  | none => .error .invalid_argument
  | some lab =>
    if x_size == 0 || y_size == 0 then .error .domain_error
    else .ok { l := lab, x_size := x_size, y_size := y_size,
               map := gridOf (2 * x_size + 1) (2 * y_size + 1) mkCell }

/-- Grid lookup at map position `(x, y)`; the default is never reached on a
well-formed map with `x`, `y` in bounds. -/
def cellAt (m : LabyrinthMap) (x y : Nat) : LabyrinthMapCoordinate :=
  (m.map.getD y []).getD x (.border {})

/-- `WithinBoundsOfMap` (header lines 230-232, spec §4.2): a coordinate is
within the map iff `0 ≤ x < map_x` and `0 ≤ y < map_y` (the lower bounds are
vacuous over `Nat`, matching `size_t`). -/
def WithinBoundsOfMap (m : LabyrinthMap) (c : Coordinate) : Bool :=
  c.x < m.map_x_size && c.y < m.map_y_size

/-- `IsRoom` (header lines 234-238; classification modelled from the spec,
§4.2 and §8): throws `domain_error` when the coordinate is outside the map,
and otherwise reports whether both coordinates are even. -/
def IsRoom (m : LabyrinthMap) (c : Coordinate) : Except Exc Bool :=
  if m.WithinBoundsOfMap c then .ok (c.x % 2 == 0 && c.y % 2 == 0)
  else .error .domain_error

/-- `MapCoordinateAt` (header lines 240-244; body modelled from the spec):
throws `domain_error` when the coordinate is outside the map, and otherwise
returns the cell at the coordinate. -/
def MapCoordinateAt (m : LabyrinthMap) (c : Coordinate) :
    Except Exc LabyrinthMapCoordinate :=
  if m.WithinBoundsOfMap c then .ok (m.cellAt c.x c.y)
  else .error .domain_error

/-- `LabyrinthToMap` (header lines 246-250; body modelled from the spec, §4.2):
converts a Labyrinth coordinate to map space via `(2·x, 2·y)`; per the header
contract it throws `invalid_argument` when the coordinate is outside the
Labyrinth. -/
def LabyrinthToMap (m : LabyrinthMap) (c : Coordinate) :
    Except Exc Coordinate :=
  if c.x < m.x_size && c.y < m.y_size then
    .ok { c with x := 2 * c.x, y := 2 * c.y }
  else .error .invalid_argument

/-- `MapToLabyrinth` (header lines 252-257; body modelled from the spec, §4.2):
converts a map Room coordinate to Labyrinth space by dividing by 2; it throws
`domain_error` when the result is outside the Labyrinth range and
`logic_error` when the coordinate designates a Border. -/
def MapToLabyrinth (m : LabyrinthMap) (c : Coordinate) :
    Except Exc Coordinate :=
  if c.x / 2 < m.x_size && c.y / 2 < m.y_size then
    if c.x % 2 == 0 && c.y % 2 == 0 then
      .ok { c with x := c.x / 2, y := c.y / 2 }
    else .error .logic_error
  else .error .domain_error

/-- The map position one step from `(x, y)` in direction `d`, or `none` when
the step would leave the grid on the low side (`Nat` has no negatives, so the
low side is handled here and the high side by a bounds check at use sites).
The y-axis grows downward, matching the top-to-bottom row iteration. -/
def neighborOf (x y : Nat) : Direction → Option (Nat × Nat)
  | .kNorth => if y == 0 then none else some (x, y - 1)
  | .kSouth => some (x, y + 1)
  | .kEast => some (x + 1, y)
  | .kWest => if x == 0 then none else some (x - 1, y)
  | .kNone => none

/-- Modelled from the spec (missing `CleanBorders` body; header lines 259-269
and spec §4.2): a wall segment of the Border cell at `(x, y)` pointing in
direction `d` is structurally invalid when the neighbouring map position in
that direction is outside the map (a segment on the exterior of the
Labyrinth, pointing outward past the boundary) or is a Room cell (a segment
pointing into a directly adjacent Room, structurally implied absent). -/
def structurallyInvalidWall (m : LabyrinthMap) (x y : Nat) (d : Direction) :
    Bool :=
  match neighborOf x y d with
  | none => true
  | some (nx, ny) =>
    if nx < m.map_x_size && ny < m.map_y_size then nx % 2 == 0 && ny % 2 == 0
    else true

/-- Modelled from the spec (missing `CleanBorders` body; header lines 259-269
and spec §4.2): the cell at `(x, y)` after the cleaning pass: a Room is left
untouched; a Border keeps exactly its walls that are not structurally
invalid, and its exit flag. -/
def cleanCellAt (m : LabyrinthMap) (x y : Nat) : LabyrinthMapCoordinate :=
  match m.cellAt x y with
  | .room r => .room r
  | .border b => .border {
      wall_north := b.wall_north && !(m.structurallyInvalidWall x y .kNorth),
      wall_east := b.wall_east && !(m.structurallyInvalidWall x y .kEast),
      wall_south := b.wall_south && !(m.structurallyInvalidWall x y .kSouth),
      wall_west := b.wall_west && !(m.structurallyInvalidWall x y .kWest),
      has_exit := b.has_exit }

/-- `CleanBorders` (header lines 259-270; body modelled from the spec): cleans
excess map Borders over the whole grid; borders are NOT matched to the
Labyrinth's layout here. -/
def CleanBorders (m : LabyrinthMap) : LabyrinthMap :=
  { m with map := gridOf m.map_x_size m.map_y_size (fun x y => m.cleanCellAt x y) }

/-- Modelled from the spec (missing `UpdateBorders` body; spec §4.2): the wall
presence in the external Labyrinth corresponding to the wall segment of the
Border cell at map position `(x, y)` in direction `d`: a Border between two
horizontally adjacent Rooms carries the east wall of the Labyrinth room to
its west; a Border between two vertically adjacent Rooms carries the south
wall of the Labyrinth room to its north; a corner Border's arms carry the
walls of the adjacent non-corner Borders; a Room position carries no wall. -/
def labWallAt (m : LabyrinthMap) (x y : Nat) (d : Direction) : Bool :=
  if x % 2 == 0 && y % 2 == 0 then false
  else if x % 2 == 1 && y % 2 == 0 then m.l.hasWall (x / 2) (y / 2) .kEast
  else if x % 2 == 0 && y % 2 == 1 then m.l.hasWall (x / 2) (y / 2) .kSouth
  else
    match d with
    | .kNorth => m.l.hasWall (x / 2) (y / 2) .kEast
    | .kSouth => m.l.hasWall (x / 2) ((y + 1) / 2) .kEast
    | .kEast => m.l.hasWall ((x + 1) / 2) (y / 2) .kSouth
    | .kWest => m.l.hasWall (x / 2) (y / 2) .kSouth
    | .kNone => false

/-- Modelled from the spec (missing `UpdateBorders` body; header lines 271-277
and spec §4.2): the cell at `(x, y)` after the sync pass: a Room is left
untouched; a Border keeps a wall only when the corresponding Labyrinth wall is
present (walls in the Map but not in the Labyrinth are removed; walls in the
Labyrinth but not in the Map are not added), and keeps its exit flag. -/
def updateCellAt (m : LabyrinthMap) (x y : Nat) : LabyrinthMapCoordinate :=
  match m.cellAt x y with
  | .room r => .room r
  | .border b => .border {
      wall_north := b.wall_north && m.labWallAt x y .kNorth,
      wall_east := b.wall_east && m.labWallAt x y .kEast,
      wall_south := b.wall_south && m.labWallAt x y .kSouth,
      wall_west := b.wall_west && m.labWallAt x y .kWest,
      has_exit := b.has_exit }

/-- `UpdateBorders` (header lines 271-277; body modelled from the spec):
updates the map Borders over the whole grid by checking the contents of the
Labyrinth. -/
def UpdateBorders (m : LabyrinthMap) : LabyrinthMap :=
  { m with map := gridOf m.map_x_size m.map_y_size (fun x y => m.updateCellAt x y) }

end LabyrinthMap

/-- A concrete 2×2 Labyrinth used to instantiate hypotheses at concrete
inputs: every wall present, no inhabitants, no items. -/
def demoLab : Labyrinth :=
  { x_size := 2, y_size := 2,
    hasWall := fun _ _ _ => true,
    inhabitantAt := fun _ _ => .kNone,
    itemAt := fun _ _ => .kNone }

/-- The map successfully constructed from `demoLab` with sizes 2×2: a 5×5
grid of default cells. -/
def demoMap : LabyrinthMap :=
  { l := demoLab, x_size := 2, y_size := 2,
    map := LabyrinthMap.gridOf 5 5 LabyrinthMap.mkCell }

theorem getD_gridOf (f : Nat → Nat → LabyrinthMapCoordinate) {xs ys x y : Nat}
    (hx : x < xs) (hy : y < ys) :
    ((LabyrinthMap.gridOf xs ys f).getD y []).getD x (.border {}) = f x y := by
  unfold LabyrinthMap.gridOf
  have hy' : y <
      ((List.range ys).map fun y => (List.range xs).map fun x => f x y).length := by
    simpa using hy
  rw [List.getD_eq_getElem _ _ hy', List.getElem_map, List.getElem_range]
  have hx' : x < ((List.range xs).map fun x => f x y).length := by simpa using hx
  rw [List.getD_eq_getElem _ _ hx', List.getElem_map, List.getElem_range]

theorem isRoomCell_mkCell (x y : Nat) :
    (LabyrinthMap.mkCell x y).isRoomCell = (x % 2 == 0 && y % 2 == 0) := by
  unfold LabyrinthMap.mkCell
  split
  · next h => simp [LabyrinthMapCoordinate.isRoomCell, h]
  · next h =>
      have h' : (x % 2 == 0 && y % 2 == 0) = false := by
        revert h
        cases hb : (x % 2 == 0 && y % 2 == 0) <;> simp
      simp [LabyrinthMapCoordinate.isRoomCell, h']

/-- C1: every Border-only operation on a Room cell and every Room-only
operation on a Border cell throws `logic_error`, for every method pairing
and every cell state and argument. -/
theorem claim_C1 (r : RoomState) (b : BorderState) (d : Direction) (v : Bool)
    (inh : Inhabitant) (it : Item) :
    (LabyrinthMapCoordinate.room r).IsWall d = .error .logic_error ∧
    (LabyrinthMapCoordinate.room r).SetWall d v = .error .logic_error ∧
    (LabyrinthMapCoordinate.room r).IsExit = .error .logic_error ∧
    (LabyrinthMapCoordinate.room r).SetExit v = .error .logic_error ∧
    (LabyrinthMapCoordinate.border b).GetInhabitant = .error .logic_error ∧
    (LabyrinthMapCoordinate.border b).SetInhabitant inh = .error .logic_error ∧
    (LabyrinthMapCoordinate.border b).ItemAt = .error .logic_error ∧
    (LabyrinthMapCoordinate.border b).SetItem it = .error .logic_error :=
  ⟨rfl, rfl, rfl, rfl, rfl, rfl, rfl, rfl⟩

/-- C3: a default-constructed Border cell reports a wall present in all four
directions and no exit; a default-constructed Room cell reports no inhabitant
and no item. -/
theorem claim_C3 :
    (LabyrinthMapCoordinate.border {}).IsWall .kNorth = .ok true ∧
    (LabyrinthMapCoordinate.border {}).IsWall .kEast = .ok true ∧
    (LabyrinthMapCoordinate.border {}).IsWall .kSouth = .ok true ∧
    (LabyrinthMapCoordinate.border {}).IsWall .kWest = .ok true ∧
    (LabyrinthMapCoordinate.border {}).IsExit = .ok false ∧
    (LabyrinthMapCoordinate.room {}).GetInhabitant = .ok .kNone ∧
    (LabyrinthMapCoordinate.room {}).ItemAt = .ok .kNone :=
  ⟨rfl, rfl, rfl, rfl, rfl, rfl, rfl⟩

/-- C5: on a Border cell, `SetWall d b` when the wall's presence already
equals `b` returns the cell unchanged, and likewise `SetExit b` when the exit
flag already equals `b`. -/
theorem claim_C5 (b : BorderState) (d : Direction) (v : Bool) :
    ((LabyrinthMapCoordinate.border b).IsWall d = .ok v →
      (LabyrinthMapCoordinate.border b).SetWall d v = .ok (.border b)) ∧
    ((LabyrinthMapCoordinate.border b).IsExit = .ok v →
      (LabyrinthMapCoordinate.border b).SetExit v = .ok (.border b)) := by
  constructor
  · intro h
    cases d
    all_goals
      first
      | exact Except.noConfusion h
      | (injection h with h2; rw [← h2]; rfl)
  · intro h
    injection h with h2
    rw [← h2]
    rfl

/-- C5 witness: on a default Border, the north wall reads `true`, and setting
it to `true` returns the cell unchanged. -/
theorem claim_C5_witness :
    (LabyrinthMapCoordinate.border {}).IsWall .kNorth = .ok true ∧
    (LabyrinthMapCoordinate.border {}).SetWall .kNorth true = .ok (.border {}) :=
  ⟨rfl, (claim_C5 {} .kNorth true).1 rfl⟩

/-- C7: on a Border cell in any state, passing direction `kNone` to `IsWall`
or `SetWall` throws `invalid_argument`. -/
theorem claim_C7 (b : BorderState) (v : Bool) :
    (LabyrinthMapCoordinate.border b).IsWall .kNone = .error .invalid_argument ∧
    (LabyrinthMapCoordinate.border b).SetWall .kNone v = .error .invalid_argument :=
  ⟨rfl, rfl⟩

/-- C10: on a Border cell, `IsExit` and `SetExit` always succeed (they throw
for no input or state), and `SetExit b` followed by `IsExit` returns `b`. -/
theorem claim_C10 (b : BorderState) (v : Bool) :
    (LabyrinthMapCoordinate.border b).IsExit = .ok b.has_exit ∧
    (LabyrinthMapCoordinate.border b).SetExit v = .ok (.border { b with has_exit := v }) ∧
    ((LabyrinthMapCoordinate.border b).SetExit v).bind LabyrinthMapCoordinate.IsExit = .ok v :=
  ⟨rfl, rfl, rfl⟩

/-- C4: constructing with a null labyrinth reference throws
`invalid_argument`; constructing with `x_size = 0` or `y_size = 0` throws
`domain_error`; construction succeeds exactly when the reference is present
and both sizes are positive. -/
theorem claim_C4 (o : Option Labyrinth) (xs ys : Nat) :
    (LabyrinthMap.construct none xs ys = .error .invalid_argument) ∧
    (∀ lab : Labyrinth, xs = 0 ∨ ys = 0 →
      LabyrinthMap.construct (some lab) xs ys = .error .domain_error) ∧
    ((∃ m, LabyrinthMap.construct o xs ys = .ok m) ↔
      (o.isSome = true ∧ 0 < xs ∧ 0 < ys)) := by
  refine ⟨rfl, ?_, ?_⟩
  · intro lab h
    simp only [LabyrinthMap.construct]
    rw [if_pos]
    rcases h with h | h <;> simp [h]
  · cases o with
    | none => simp [LabyrinthMap.construct]
    | some lab =>
      simp only [LabyrinthMap.construct]
      constructor
      · rintro ⟨m, hm⟩
        by_cases h : (xs == 0 || ys == 0) = true
        · rw [if_pos h] at hm
          exact Except.noConfusion hm
        · simp only [Bool.or_eq_true, beq_iff_eq] at h
          push_neg at h
          simp only [Option.isSome_some, true_and]
          omega
      · rintro ⟨-, hx, hy⟩
        rw [if_neg]
        · exact ⟨_, rfl⟩
        · simp only [Bool.or_eq_true, beq_iff_eq]
          push_neg
          omega

/-- C4 witness: constructing with `x_size = 0` from a present labyrinth
reference throws `domain_error`. -/
theorem claim_C4_witness :
    ((0 : Nat) = 0 ∨ (2 : Nat) = 0) ∧
    LabyrinthMap.construct (some demoLab) 0 2 = .error .domain_error :=
  ⟨Or.inl rfl, (claim_C4 (some demoLab) 0 2).2.1 demoLab (Or.inl rfl)⟩

/-- C2: for sizes `x > 0` and `y > 0`, a constructed map holds a grid of
exactly `(2x+1) × (2y+1)` cells, a cell is a Room iff both its coordinates
are even, and the classification persists for the map's lifetime: every cell
setter preserves the cell's variant (only field values mutate). -/
theorem claim_C2 (lab : Labyrinth) (xs ys : Nat) (hx : 0 < xs) (hy : 0 < ys)
    (m : LabyrinthMap) (hm : LabyrinthMap.construct (some lab) xs ys = .ok m) :
    m.map.length = 2 * ys + 1 ∧
    (∀ row ∈ m.map, row.length = 2 * xs + 1) ∧
    (∀ x y, x < 2 * xs + 1 → y < 2 * ys + 1 →
      ((m.cellAt x y).isRoomCell = true ↔ (x % 2 = 0 ∧ y % 2 = 0))) ∧
    (∀ (cell cell' : LabyrinthMapCoordinate) (d : Direction) (v : Bool)
        (inh : Inhabitant) (it : Item),
      (cell.SetWall d v = .ok cell' → cell'.isRoomCell = cell.isRoomCell) ∧
      (cell.SetExit v = .ok cell' → cell'.isRoomCell = cell.isRoomCell) ∧
      (cell.SetInhabitant inh = .ok cell' → cell'.isRoomCell = cell.isRoomCell) ∧
      (cell.SetItem it = .ok cell' → cell'.isRoomCell = cell.isRoomCell)) := by
  have hmap : m.map = LabyrinthMap.gridOf (2 * xs + 1) (2 * ys + 1) LabyrinthMap.mkCell := by
    simp only [LabyrinthMap.construct] at hm
    by_cases h : (xs == 0 || ys == 0) = true
    · rw [if_pos h] at hm
      exact Except.noConfusion hm
    · rw [if_neg h] at hm
      injection hm with h2
      rw [← h2]
  refine ⟨?_, ?_, ?_, ?_⟩
  · simp [hmap, LabyrinthMap.gridOf]
  · intro row hrow
    rw [hmap] at hrow
    simp only [LabyrinthMap.gridOf, List.mem_map, List.mem_range] at hrow
    obtain ⟨y, -, hrow⟩ := hrow
    simp [← hrow]
  · intro x y hxlt hylt
    have : m.cellAt x y = LabyrinthMap.mkCell x y := by
      unfold LabyrinthMap.cellAt
      rw [hmap]
      exact getD_gridOf _ hxlt hylt
    rw [this, isRoomCell_mkCell]
    simp
  · intro cell cell' d v inh it
    refine ⟨?_, ?_, ?_, ?_⟩ <;> intro h
    · cases cell with
      | room r => exact Except.noConfusion h
      | border bb =>
        cases d <;>
          first
          | exact Except.noConfusion h
          | (injection h with h2; rw [← h2]; rfl)
    · cases cell with
      | room r => exact Except.noConfusion h
      | border bb => injection h with h2; rw [← h2]; rfl
    · cases cell with
      | room r => injection h with h2; rw [← h2]; rfl
      | border bb => exact Except.noConfusion h
    · cases cell with
      | room r => injection h with h2; rw [← h2]; rfl
      | border bb => exact Except.noConfusion h

/-- C2 witness: the 2×2 demo construction succeeds, yields a 5-row grid, and
its cell at (0, 0) is a Room. -/
theorem claim_C2_witness :
    LabyrinthMap.construct (some demoLab) 2 2 = .ok demoMap ∧
    demoMap.map.length = 5 ∧
    ((demoMap.cellAt 0 0).isRoomCell = true ↔ ((0:Nat) % 2 = 0 ∧ (0:Nat) % 2 = 0)) :=
  ⟨rfl, (claim_C2 demoLab 2 2 (by decide) (by decide) demoMap rfl).1,
    (claim_C2 demoLab 2 2 (by decide) (by decide) demoMap rfl).2.2.1 0 0
      (by decide) (by decide)⟩

/-- C6: for a Labyrinth-space Room coordinate within range, converting to Map
space and back returns the original coordinate. -/
theorem claim_C6 (m : LabyrinthMap) (c : Coordinate)
    (hx : c.x < m.x_size) (hy : c.y < m.y_size) :
    (m.LabyrinthToMap c).bind m.MapToLabyrinth = .ok c := by
  obtain ⟨x, y, d⟩ := c
  simp only at hx hy
  simp [LabyrinthMap.LabyrinthToMap, LabyrinthMap.MapToLabyrinth, hx, hy,
    Nat.mul_div_cancel_left, Nat.mul_mod_right, Except.bind]

/-- C6 witness: the round trip at Labyrinth coordinate (0, 1) of the 2×2 demo
map. -/
theorem claim_C6_witness :
    (demoMap.LabyrinthToMap ⟨0, 1, .kNorth⟩).bind demoMap.MapToLabyrinth =
      .ok ⟨0, 1, .kNorth⟩ :=
  claim_C6 demoMap ⟨0, 1, .kNorth⟩ (by decide) (by decide)

/-- C8 counterexample: on the 2×2 demo map, the Labyrinth-to-Map conversion at
the out-of-range coordinate (5, 0) throws `invalid_argument`, not the
`domain_error` the claim requires of every out-of-bounds rejection. -/
theorem claim_C8_counterexample :
    demoMap.LabyrinthToMap ⟨5, 0, .kNone⟩ ≠ .error .domain_error ∧
    demoMap.LabyrinthToMap ⟨5, 0, .kNone⟩ = .error .invalid_argument := by
  constructor
  · intro h
    exact absurd h (by decide)
  · decide

/-- C8 (amended): `IsRoom` and `MapCoordinateAt` throw `domain_error` on an
out-of-bounds coordinate; `MapToLabyrinth` throws `domain_error` on a
coordinate out of Labyrinth range and `logic_error` on a Border coordinate;
but `LabyrinthToMap` throws `invalid_argument` (per its declared contract) on
an out-of-range coordinate. -/
theorem claim_C8_amended (m : LabyrinthMap) (c : Coordinate) :
    (¬ (c.x < m.x_size ∧ c.y < m.y_size) →
      m.LabyrinthToMap c = .error .invalid_argument) ∧
    (¬ (c.x / 2 < m.x_size ∧ c.y / 2 < m.y_size) →
      m.MapToLabyrinth c = .error .domain_error) ∧
    ((c.x / 2 < m.x_size ∧ c.y / 2 < m.y_size) → ¬ (c.x % 2 = 0 ∧ c.y % 2 = 0) →
      m.MapToLabyrinth c = .error .logic_error) ∧
    (m.WithinBoundsOfMap c = false →
      m.IsRoom c = .error .domain_error ∧
      m.MapCoordinateAt c = .error .domain_error) := by
  refine ⟨?_, ?_, ?_, ?_⟩
  · intro h
    unfold LabyrinthMap.LabyrinthToMap
    rw [if_neg]
    simpa using h
  · intro h
    unfold LabyrinthMap.MapToLabyrinth
    rw [if_neg]
    simpa using h
  · intro h1 h2
    unfold LabyrinthMap.MapToLabyrinth
    rw [if_pos, if_neg]
    · simpa using h2
    · simpa using h1
  · intro h
    constructor
    · unfold LabyrinthMap.IsRoom
      rw [if_neg]
      simp [h]
    · unfold LabyrinthMap.MapCoordinateAt
      rw [if_neg]
      simp [h]

/-- C8 amended witness: on the 2×2 demo map, coordinate (5, 0) is out of
Labyrinth range and `LabyrinthToMap` throws `invalid_argument` there. -/
theorem claim_C8_amended_witness :
    (¬ ((5 : Nat) < demoMap.x_size ∧ (0 : Nat) < demoMap.y_size)) ∧
    demoMap.LabyrinthToMap ⟨5, 0, .kNone⟩ = .error .invalid_argument :=
  ⟨by decide, (claim_C8_amended demoMap ⟨5, 0, .kNone⟩).1 (by decide)⟩

/-- C9: on every in-bounds cell, `CleanBorders` and `UpdateBorders` are
monotonically decreasing on the set of present walls: every wall present
after either pass was present before it; `CleanBorders` removes only
structurally invalid walls; `UpdateBorders` removes walls whose corresponding
Labyrinth wall is absent, and never adds a wall. -/
theorem claim_C9 (m : LabyrinthMap) (x y : Nat)
    (hx : x < m.map_x_size) (hy : y < m.map_y_size) (d : Direction) :
    ((m.CleanBorders.cellAt x y).cellWall d = true →
      (m.cellAt x y).cellWall d = true) ∧
    ((m.UpdateBorders.cellAt x y).cellWall d = true →
      (m.cellAt x y).cellWall d = true) ∧
    ((m.cellAt x y).cellWall d = true → m.structurallyInvalidWall x y d = false →
      (m.CleanBorders.cellAt x y).cellWall d = true) ∧
    (m.labWallAt x y d = false →
      (m.UpdateBorders.cellAt x y).cellWall d = false) := by
  have hc : m.CleanBorders.cellAt x y = m.cleanCellAt x y := by
    unfold LabyrinthMap.CleanBorders LabyrinthMap.cellAt
    exact getD_gridOf _ hx hy
  have hu : m.UpdateBorders.cellAt x y = m.updateCellAt x y := by
    unfold LabyrinthMap.UpdateBorders LabyrinthMap.cellAt
    exact getD_gridOf _ hx hy
  rw [hc, hu]
  unfold LabyrinthMap.cleanCellAt LabyrinthMap.updateCellAt
  cases hcell : m.cellAt x y with
  | room r => simp [LabyrinthMapCoordinate.cellWall]
  | border b =>
    cases d <;> simp_all [LabyrinthMapCoordinate.cellWall]

/-- C9 witness: one in-bounds instance on the 2×2 demo map: a north wall
present after `CleanBorders` at cell (1, 1) was present before it. -/
theorem claim_C9_witness :
    ((1 : Nat) < demoMap.map_x_size ∧ (1 : Nat) < demoMap.map_y_size) ∧
    ((demoMap.CleanBorders.cellAt 1 1).cellWall .kNorth = true →
      (demoMap.cellAt 1 1).cellWall .kNorth = true) :=
  ⟨by decide, (claim_C9 demoMap 1 1 (by decide) (by decide) .kNorth).1⟩
